import Mathlib

/-!
Verification development for the Website Plunder repository.

The definitions below are a shallow embedding of the TypeScript sources:

* `CodegenMCP` (unnamed/part_000, lines 26-729): HTML generation from a
  layout plan — `escapeHtml`, `camelToKebab`, `generateElement`,
  `generateSection`, `generateCSS`, `generateJS`, `generate`.
* `DiffTestMCP` (unnamed/part_000, lines 730-962): visual scoring —
  `compareScreenshots`, `test`, thresholds.
* `VisionLayoutMCP` (src/mcps/VisionLayoutMCP.ts): `buildTypographyPlan`
  and `refine`.
* the verification controller `runVerification`
  (src/mcps/VisionLayoutMCP.ts part 2, lines 508-783): best-candidate
  tracking and the bounded Generate→Score→Refine loop.

Strings are modelled by Lean `String` (JavaScript strings are sequences of
UTF-16 code units; all characters relevant here are in the BMP, where both
models agree).  JavaScript `number` is modelled by `ℚ` for mismatch
percentages and scale factors (an idealisation of IEEE doubles; none of the
verified properties depends on float rounding) and by `Int`/`Nat` where the
program only ever stores integers (section `order`, pixel counts,
viewport dimensions).  Literal `{` and `}` inside string literals are
written with the escapes `\x7b` and `\x7d`, and the apostrophe as `\x27`.
-/

set_option maxHeartbeats 1000000

/-! ## JavaScript string primitives -/

/-- The apostrophe character `'` (code point 39). -/
def singleQuote : Char := Char.ofNat 39

/-- `String.prototype.startsWith`: `s.startsWith(pre)`. -/
def jsStartsWith (s pre : String) : Bool := pre.data.isPrefixOf s.data

/-- Helper for `jsIncludes`: does `pat` occur as a contiguous infix of `l`? -/
def listInfixOf (pat : List Char) : List Char → Bool
  | [] => pat.isEmpty
  | x :: xs => pat.isPrefixOf (x :: xs) || listInfixOf pat xs

/-- `String.prototype.includes`: `s.includes(pat)`. -/
def jsIncludes (s pat : String) : Bool := listInfixOf pat.data s.data

/-- JavaScript `a || b` on an optional string `a` and default `b`:
`undefined` and the empty string are falsy. -/
def jsOr (v : Option String) (d : String) : String :=
  match v with
  | some s => if s = "" then d else s
  | none => d

/-- JavaScript `'  '.repeat(depth)` (CodegenMCP.generateElement line 501). -/
def indentStr (depth : Nat) : String := String.join (List.replicate depth "  ")

/-! ## CodegenMCP.escapeHtml (part_000 lines 719-726)

The source escapes with five sequential global single-character
replacements: `&`→`&amp;`, `<`→`&lt;`, `>`→`&gt;`, `"`→`&quot;`,
`'`→`&#039;`, in that order.  `replaceChar c repl` is the global
replacement of the single character `c` by the string `repl`. -/

/-- Global replacement of one character by a string, on the character list
of a string — the meaning of `str.replace(/c/g, repl)` for a
single-character pattern `c`. -/
def replaceChar (c : Char) (repl : List Char) : List Char → List Char
  | [] => []
  | x :: xs => (if x = c then repl else [x]) ++ replaceChar c repl xs

/-- The characters of `&amp;`. -/
def ampEnt : List Char := ['&', 'a', 'm', 'p', ';']

/-- The characters of `&lt;`. -/
def ltEnt : List Char := ['&', 'l', 't', ';']

/-- The characters of `&gt;`. -/
def gtEnt : List Char := ['&', 'g', 't', ';']

/-- The characters of `&quot;`. -/
def quotEnt : List Char := ['&', 'q', 'u', 'o', 't', ';']

/-- The characters of `&#039;`. -/
def aposEnt : List Char := ['&', '#', '0', '3', '9', ';']

/-- The five replacement passes of `CodegenMCP.escapeHtml`, innermost first
(`&` is replaced first, exactly as in the source). -/
def escapeChars (l : List Char) : List Char :=
  replaceChar singleQuote aposEnt
    (replaceChar '"' quotEnt
      (replaceChar '>' gtEnt
        (replaceChar '<' ltEnt
          (replaceChar '&' ampEnt l))))

/-- `CodegenMCP.escapeHtml` (part_000 lines 719-726). -/
def escapeHtml (s : String) : String := String.mk (escapeChars s.data)

/-! ## The "no unescaped special character" scanner

`specialFree l` holds when `l` contains none of `<`, `>`, `"`, `'` and
every `&` starts one of the five entities emitted by `escapeHtml`.  This is
the formal meaning of "contains no unescaped occurrence of those
characters" used by the escaping claim. -/

/-- `true` iff the character list has no raw `<`, `>`, `"`, `'` and every
`&` begins `&amp;`, `&lt;`, `&gt;`, `&quot;` or `&#039;`. -/
def specialFree : List Char → Bool
  | [] => true
  | x :: xs =>
    if x = '&' then
      match xs with
      | 'a' :: 'm' :: 'p' :: ';' :: rest => specialFree rest
      | 'l' :: 't' :: ';' :: rest => specialFree rest
      | 'g' :: 't' :: ';' :: rest => specialFree rest
      | 'q' :: 'u' :: 'o' :: 't' :: ';' :: rest => specialFree rest
      | '#' :: '0' :: '3' :: '9' :: ';' :: rest => specialFree rest
      | _ => false
    else !(x = '<' || x = '>' || x = '"' || x = singleQuote) && specialFree xs

/-- Per-character view of the five replacement passes: what a single
character becomes after `escapeChars`. -/
def escChar (x : Char) : List Char :=
  if x = '&' then ampEnt
  else if x = '<' then ltEnt
  else if x = '>' then gtEnt
  else if x = '"' then quotEnt
  else if x = singleQuote then aposEnt
  else [x]


/-! ## Data model (src/types/index.ts)

Only the parts of `PageContent` consumed by the embedded functions are
modelled (`title` and `metaDescription`, used by `CodegenMCP.generate`);
the raw-extraction fields feed functions outside the claims.  Element and
section `styles` objects are modelled by what `Object.entries` yields on
them: an association list in property-insertion order. -/

/-- `SectionType` (types/index.ts lines 91-101). -/
inductive SectionType where
  | header | hero | content | offerList | offerCard
  | features | testimonials | cta | footer | generic
deriving DecidableEq, Repr

/-- The string value of a `SectionType` in the source. -/
def SectionType.str : SectionType → String
  | .header => "header"
  | .hero => "hero"
  | .content => "content"
  | .offerList => "offer-list"
  | .offerCard => "offer-card"
  | .features => "features"
  | .testimonials => "testimonials"
  | .cta => "cta"
  | .footer => "footer"
  | .generic => "generic"

/-- `ElementType` (types/index.ts lines 128-140). -/
inductive ElementType where
  | heading | paragraph | image | button | link | list
  | listItem | card | icon | divider | container | text
deriving DecidableEq, Repr

/-- `LayoutElement` (types/index.ts lines 115-126).  `styles` is the
`Object.entries` view of the element's `ElementStyles` object and
`dataAttributes` the entries of the `Record<string, string>`. -/
inductive LayoutElement where
  | mk (id : String) (type : ElementType) (tag : String)
      (content : Option String) (src : Option String) (alt : Option String)
      (href : Option String) (children : List LayoutElement)
      (styles : List (String × String)) (dataAttributes : List (String × String))

/-- `LayoutConfig` (types/index.ts lines 103-113).  The `display`
discriminator is kept as its string value. -/
structure LayoutConfig where
  display : String
  direction : Option String
  justify : Option String
  align : Option String
  gap : Option String
  gridTemplate : Option String
  maxWidth : Option String
  padding : Option String
  margin : Option String
deriving DecidableEq, Repr

/-- `SectionStyles` (types/index.ts lines 160-167). -/
structure SectionStyles where
  backgroundColor : Option String
  backgroundImage : Option String
  padding : Option String
  margin : Option String
  minHeight : Option String
  borderBottom : Option String
deriving DecidableEq, Repr

/-- `LayoutSection` (types/index.ts lines 82-89).  `order` is an integer in
every plan the analyzer builds (`order++` assignment); JavaScript stores it
as a number. -/
structure LayoutSection where
  id : String
  type : SectionType
  order : Int
  layout : LayoutConfig
  children : List LayoutElement
  styles : SectionStyles

/-- `TypographyLevel` (types/index.ts lines 188-193). -/
structure TypographyLevel where
  fontSize : String
  fontWeight : String
  lineHeight : String
  marginBottom : String
deriving DecidableEq, Repr

/-- `TypographyPlan` (types/index.ts lines 177-186). -/
structure TypographyPlan where
  baseSize : String
  scale : ℚ
  h1 : TypographyLevel
  h2 : TypographyLevel
  h3 : TypographyLevel
  h4 : TypographyLevel
  body : TypographyLevel
  small : TypographyLevel

/-- `ColorScheme` (types/index.ts lines 195-204). -/
structure ColorScheme where
  primary : String
  secondary : String
  accent : String
  background : String
  surface : String
  text : String
  textMuted : String
  border : String
deriving DecidableEq, Repr

/-- `GlobalStyles` (types/index.ts lines 169-175). -/
structure GlobalStyles where
  bodyBackground : String
  bodyColor : String
  fontFamily : String
  lineHeight : String
  maxWidth : String
deriving DecidableEq, Repr

/-- One viewport rectangle. -/
structure ViewportSize where
  width : Nat
  height : Nat
deriving DecidableEq, Repr

/-- The `viewport` field of `LayoutPlan`. -/
structure ViewportPlan where
  desktop : ViewportSize
  mobile : ViewportSize
deriving DecidableEq, Repr

/-- `LayoutPlan` (types/index.ts lines 71-80). -/
structure LayoutPlan where
  viewport : ViewportPlan
  sections : List LayoutSection
  globalStyles : GlobalStyles
  typography : TypographyPlan
  colorScheme : ColorScheme

/-- The fragment of `PageContent` (types/index.ts lines 23-31) read by
`CodegenMCP.generate`. -/
structure PageContent where
  title : String
  metaDescription : String
deriving DecidableEq, Repr

/-- `CodegenRequest` (types/index.ts lines 210-213). -/
structure CodegenRequest where
  layoutPlan : LayoutPlan
  pageContent : PageContent

/-! ## CodegenMCP (part_000 lines 26-729) -/

/-- `CodegenMCP.camelToKebab` (lines 712-714):
`str.replace(/([a-z])([A-Z])/g, '$1-$2').toLowerCase()`.  The regex scans
left to right without overlap: after rewriting a lowercase/uppercase pair
it continues after the pair.  `Char.isLower`/`Char.isUpper` are the ASCII
classes `[a-z]`/`[A-Z]` of the regex; `Char.toLower` models
`toLowerCase()` on the ASCII keys the source feeds it. -/
def camelToKebabAux : List Char → List Char
  | [] => []
  | [a] => [a]
  | a :: b :: rest =>
    if a.isLower && b.isUpper then a :: '-' :: b :: camelToKebabAux rest
    else a :: camelToKebabAux (b :: rest)

/-- `CodegenMCP.camelToKebab` on strings. -/
def camelToKebab (s : String) : String :=
  String.mk ((camelToKebabAux s.data).map Char.toLower)

/-- The inline-style string built by `generateElement`/`generateSection`
(lines 505-508 and 581-584): entries with falsy values dropped, keys
kebab-cased, joined by `; `. -/
def styleEntriesStr (styles : List (String × String)) : String :=
  String.intercalate "; "
    ((styles.filter (fun p => p.2 ≠ "")).map (fun p => camelToKebab p.1 ++ ": " ++ p.2))

/-- The `data-*` attribute string of `generateElement` (lines 511-513):
keys are interpolated raw, values through `escapeHtml`. -/
def dataEntriesStr (dataAttributes : List (String × String)) : String :=
  String.intercalate " "
    (dataAttributes.map (fun p => "data-" ++ p.1 ++ "=\"" ++ escapeHtml p.2 ++ "\""))

mutual
/-- `CodegenMCP.generateElement` (lines 500-563).  The `button` and `link`
cases share one body in the source (fall-through `case` labels); `icon`
and any unrecognised type fall to the default `span` arm together with
`text`. -/
def generateElement : LayoutElement → Nat → String
  | .mk _ ty tag content src alt href children styles dataAttributes, depth =>
    let indent := indentStr depth
    let styleStr := styleEntriesStr styles
    let dataStr := dataEntriesStr dataAttributes
    let styleAttr := if styleStr ≠ "" then " style=\"" ++ styleStr ++ "\"" else ""
    let dataAttr := if dataStr ≠ "" then " " ++ dataStr else ""
    match ty with
    | .heading =>
      indent ++ "<" ++ tag ++ styleAttr ++ ">" ++ escapeHtml (content.getD "") ++ "</" ++ tag ++ ">"
    | .paragraph =>
      indent ++ "<p" ++ styleAttr ++ ">" ++ escapeHtml (content.getD "") ++ "</p>"
    | .image =>
      let imgAlt :=
        match alt with
        | some a => if a ≠ "" then " alt=\"" ++ escapeHtml a ++ "\"" else ""
        | none => ""
      indent ++ "<img src=\"" ++ src.getD "" ++ "\"" ++ imgAlt ++ styleAttr ++ " loading=\"lazy\">"
    | .button =>
      indent ++ "<a href=\"" ++ jsOr href "#" ++ "\"" ++ " class=\"btn btn-primary\"" ++ styleAttr
        ++ ">" ++ escapeHtml (content.getD "") ++ "</a>"
    | .link =>
      indent ++ "<a href=\"" ++ jsOr href "#" ++ "\"" ++ styleAttr
        ++ ">" ++ escapeHtml (content.getD "") ++ "</a>"
    | .list =>
      indent ++ "<ul" ++ styleAttr ++ ">\n"
        ++ String.intercalate "\n" (generateElements children (depth + 1))
        ++ "\n" ++ indent ++ "</ul>"
    | .listItem =>
      indent ++ "<li" ++ styleAttr ++ ">" ++ escapeHtml (content.getD "") ++ "</li>"
    | .card =>
      indent ++ "<div class=\"offer\"" ++ dataAttr ++ styleAttr ++ ">\n"
        ++ String.intercalate "\n" (generateElements children (depth + 1))
        ++ "\n" ++ indent ++ "</div>"
    | .container =>
      indent ++ "<div" ++ styleAttr ++ ">\n"
        ++ String.intercalate "\n" (generateElements children (depth + 1))
        ++ "\n" ++ indent ++ "</div>"
    | .divider =>
      indent ++ "<hr" ++ styleAttr ++ ">"
    | .icon =>
      indent ++ "<span" ++ styleAttr ++ ">" ++ escapeHtml (content.getD "") ++ "</span>"
    | .text =>
      indent ++ "<span" ++ styleAttr ++ ">" ++ escapeHtml (content.getD "") ++ "</span>"

/-- `(children || []).map(child => generateElement(child, depth))` — the
per-child strings that the source joins with `'\n'`. -/
def generateElements : List LayoutElement → Nat → List String
  | [], _ => []
  | e :: es, depth => generateElement e depth :: generateElements es depth
end

/-- The `Object.entries({...styles})` view of a section's styles, in the
declaration order of the `SectionStyles` interface; absent fields yield no
entry. -/
def sectionStyleEntries (s : SectionStyles) : List (String × String) :=
  (match s.backgroundColor with | some v => [("backgroundColor", v)] | none => [])
  ++ (match s.backgroundImage with | some v => [("backgroundImage", v)] | none => [])
  ++ (match s.padding with | some v => [("padding", v)] | none => [])
  ++ (match s.margin with | some v => [("margin", v)] | none => [])
  ++ (match s.minHeight with | some v => [("minHeight", v)] | none => [])
  ++ (match s.borderBottom with | some v => [("borderBottom", v)] | none => [])

/-- `CodegenMCP.generateSection` (lines 568-613).  The two template
branches of the source are byte-identical ("there is no behavioral branch
here"); the `if useContainer` is kept to mirror the code. -/
def generateSection (s : LayoutSection) : String :=
  let tag :=
    if s.type = .header then "header"
    else if s.type = .footer then "footer"
    else if s.type = .content then "main"
    else "section"
  let className := s.type.str
  let styleStr := styleEntriesStr (sectionStyleEntries s.styles)
  let styleAttr := if styleStr ≠ "" then " style=\"" ++ styleStr ++ "\"" else ""
  let dataAttr := if s.type = .offerCard then " data-offer-id=\"" ++ s.id ++ "\"" else ""
  let childrenHtml := String.intercalate "\n" (generateElements s.children 2)
  let useContainer := ["hero", "content", "cta", "offer-list"].contains className
  if useContainer then
    "<" ++ tag ++ " class=\"" ++ className ++ "\"" ++ dataAttr ++ styleAttr
      ++ ">\n    <div class=\"container\">\n" ++ childrenHtml
      ++ "\n    </div>\n  </" ++ tag ++ ">"
  else
    "<" ++ tag ++ " class=\"" ++ className ++ "\"" ++ dataAttr ++ styleAttr
      ++ ">\n    <div class=\"container\">\n" ++ childrenHtml
      ++ "\n    </div>\n  </" ++ tag ++ ">"

/-- The comparator `(a, b) => a.order - b.order` of `generate` line 658 as
a boolean "less or equal" test. -/
def sectionLE (a b : LayoutSection) : Bool := decide (a.order ≤ b.order)

/-- `layoutPlan.sections.sort((a, b) => a.order - b.order)` (line 658).
`Array.prototype.sort` is stable (ES2019); a stable merge sort by `order`
models it.  The source sorts the array in place — `generateRun` below
exposes that mutation. -/
def sortSections (sections : List LayoutSection) : List LayoutSection :=
  sections.mergeSort sectionLE

/-- `CodegenMCP.generateCSS` (part_000 lines 30-495).  The template literal
is reproduced line by line (joined with newlines) with its surrounding
blank space removed, exactly as `.trim()` leaves it.  Literal braces are
written `\x7b`/`\x7d`; the `content` value on the offer-feature rule
reproduces the three mojibake characters present in the source bytes. -/
def generateCSS (layoutPlan : LayoutPlan) : String :=
  let globalStyles := layoutPlan.globalStyles
  let typography := layoutPlan.typography
  let colorScheme := layoutPlan.colorScheme
  String.intercalate "\n" [
    "/* ===========================================",
    "   CSS Variables - Easy to customize",
    "   =========================================== */",
    ":root \x7b",
    "  /* Colors */",
    "  --color-primary: " ++ colorScheme.primary ++ ";",
    "  --color-secondary: " ++ colorScheme.secondary ++ ";",
    "  --color-accent: " ++ colorScheme.accent ++ ";",
    "  --color-background: " ++ colorScheme.background ++ ";",
    "  --color-surface: " ++ colorScheme.surface ++ ";",
    "  --color-text: " ++ colorScheme.text ++ ";",
    "  --color-text-muted: " ++ colorScheme.textMuted ++ ";",
    "  --color-border: " ++ colorScheme.border ++ ";",
    "",
    "  /* Typography */",
    "  --font-family: " ++ globalStyles.fontFamily ++ ";",
    "  --font-size-base: " ++ typography.baseSize ++ ";",
    "  --line-height-base: " ++ globalStyles.lineHeight ++ ";",
    "",
    "  /* Spacing */",
    "  --spacing-xs: 0.25rem;",
    "  --spacing-sm: 0.5rem;",
    "  --spacing-md: 1rem;",
    "  --spacing-lg: 1.5rem;",
    "  --spacing-xl: 2rem;",
    "  --spacing-2xl: 3rem;",
    "",
    "  /* Layout */",
    "  --max-width: " ++ globalStyles.maxWidth ++ ";",
    "  --border-radius: 8px;",
    "\x7d",
    "",
    "/* ===========================================",
    "   Reset & Base Styles",
    "   =========================================== */",
    "*, *::before, *::after \x7b",
    "  box-sizing: border-box;",
    "  margin: 0;",
    "  padding: 0;",
    "\x7d",
    "",
    "html \x7b",
    "  font-size: 16px;",
    "  scroll-behavior: smooth;",
    "\x7d",
    "",
    "body \x7b",
    "  font-family: var(--font-family);",
    "  font-size: var(--font-size-base);",
    "  line-height: var(--line-height-base);",
    "  color: var(--color-text);",
    "  background-color: var(--color-background);",
    "  -webkit-font-smoothing: antialiased;",
    "  -moz-osx-font-smoothing: grayscale;",
    "\x7d",
    "",
    "img \x7b",
    "  max-width: 100%;",
    "  height: auto;",
    "  display: block;",
    "\x7d",
    "",
    "a \x7b",
    "  color: var(--color-primary);",
    "  text-decoration: none;",
    "\x7d",
    "",
    "a:hover \x7b",
    "  text-decoration: underline;",
    "\x7d",
    "",
    "/* ===========================================",
    "   Typography",
    "   =========================================== */",
    "h1 \x7b",
    "  font-size: " ++ typography.h1.fontSize ++ ";",
    "  font-weight: " ++ typography.h1.fontWeight ++ ";",
    "  line-height: " ++ typography.h1.lineHeight ++ ";",
    "  margin-bottom: " ++ typography.h1.marginBottom ++ ";",
    "  color: var(--color-text);",
    "\x7d",
    "",
    "h2 \x7b",
    "  font-size: " ++ typography.h2.fontSize ++ ";",
    "  font-weight: " ++ typography.h2.fontWeight ++ ";",
    "  line-height: " ++ typography.h2.lineHeight ++ ";",
    "  margin-bottom: " ++ typography.h2.marginBottom ++ ";",
    "  color: var(--color-text);",
    "\x7d",
    "",
    "h3 \x7b",
    "  font-size: " ++ typography.h3.fontSize ++ ";",
    "  font-weight: " ++ typography.h3.fontWeight ++ ";",
    "  line-height: " ++ typography.h3.lineHeight ++ ";",
    "  margin-bottom: " ++ typography.h3.marginBottom ++ ";",
    "  color: var(--color-text);",
    "\x7d",
    "",
    "h4 \x7b",
    "  font-size: " ++ typography.h4.fontSize ++ ";",
    "  font-weight: " ++ typography.h4.fontWeight ++ ";",
    "  line-height: " ++ typography.h4.lineHeight ++ ";",
    "  margin-bottom: " ++ typography.h4.marginBottom ++ ";",
    "  color: var(--color-text);",
    "\x7d",
    "",
    "p \x7b",
    "  font-size: " ++ typography.body.fontSize ++ ";",
    "  line-height: " ++ typography.body.lineHeight ++ ";",
    "  margin-bottom: " ++ typography.body.marginBottom ++ ";",
    "  color: var(--color-text);",
    "\x7d",
    "",
    ".text-muted \x7b",
    "  color: var(--color-text-muted);",
    "\x7d",
    "",
    ".text-small \x7b",
    "  font-size: " ++ typography.small.fontSize ++ ";",
    "\x7d",
    "",
    "/* ===========================================",
    "   Layout Components",
    "   =========================================== */",
    ".container \x7b",
    "  width: 100%;",
    "  max-width: var(--max-width);",
    "  margin: 0 auto;",
    "  padding: 0 var(--spacing-md);",
    "\x7d",
    "",
    ".section \x7b",
    "  padding: var(--spacing-2xl) var(--spacing-md);",
    "\x7d",
    "",
    ".flex \x7b",
    "  display: flex;",
    "\x7d",
    "",
    ".flex-column \x7b",
    "  flex-direction: column;",
    "\x7d",
    "",
    ".flex-row \x7b",
    "  flex-direction: row;",
    "\x7d",
    "",
    ".flex-wrap \x7b",
    "  flex-wrap: wrap;",
    "\x7d",
    "",
    ".justify-center \x7b",
    "  justify-content: center;",
    "\x7d",
    "",
    ".justify-between \x7b",
    "  justify-content: space-between;",
    "\x7d",
    "",
    ".align-center \x7b",
    "  align-items: center;",
    "\x7d",
    "",
    ".gap-sm \x7b",
    "  gap: var(--spacing-sm);",
    "\x7d",
    "",
    ".gap-md \x7b",
    "  gap: var(--spacing-md);",
    "\x7d",
    "",
    ".gap-lg \x7b",
    "  gap: var(--spacing-lg);",
    "\x7d",
    "",
    ".text-center \x7b",
    "  text-align: center;",
    "\x7d",
    "",
    "/* ===========================================",
    "   Header Styles",
    "   =========================================== */",
    ".header \x7b",
    "  background-color: var(--color-surface);",
    "  padding: var(--spacing-md) var(--spacing-lg);",
    "  border-bottom: 1px solid var(--color-border);",
    "\x7d",
    "",
    ".header .container \x7b",
    "  display: flex;",
    "  justify-content: space-between;",
    "  align-items: center;",
    "\x7d",
    "",
    ".logo \x7b",
    "  font-size: 1.5rem;",
    "  font-weight: 700;",
    "  color: var(--color-primary);",
    "\x7d",
    "",
    ".nav \x7b",
    "  display: flex;",
    "  gap: var(--spacing-lg);",
    "\x7d",
    "",
    ".nav a \x7b",
    "  color: var(--color-text);",
    "  font-weight: 500;",
    "\x7d",
    "",
    "/* ===========================================",
    "   Hero Styles",
    "   =========================================== */",
    ".hero \x7b",
    "  padding: var(--spacing-2xl) var(--spacing-md);",
    "  text-align: center;",
    "  background-color: var(--color-surface);",
    "\x7d",
    "",
    ".hero h1 \x7b",
    "  max-width: 800px;",
    "  margin: 0 auto var(--spacing-lg);",
    "\x7d",
    "",
    ".hero p \x7b",
    "  max-width: 600px;",
    "  margin: 0 auto var(--spacing-xl);",
    "  color: var(--color-text-muted);",
    "  font-size: 1.125rem;",
    "\x7d",
    "",
    "/* ===========================================",
    "   Content Styles",
    "   =========================================== */",
    ".content \x7b",
    "  padding: var(--spacing-xl) var(--spacing-md);",
    "\x7d",
    "",
    ".content .container \x7b",
    "  max-width: 800px;",
    "\x7d",
    "",
    "/* ===========================================",
    "   Offer / Card Styles",
    "   =========================================== */",
    ".offer-list \x7b",
    "  padding: var(--spacing-xl) var(--spacing-md);",
    "\x7d",
    "",
    ".offer-list .container \x7b",
    "  display: flex;",
    "  flex-direction: column;",
    "  gap: var(--spacing-lg);",
    "  max-width: 800px;",
    "\x7d",
    "",
    ".offer \x7b",
    "  background-color: var(--color-surface);",
    "  border: 1px solid var(--color-border);",
    "  border-radius: var(--border-radius);",
    "  padding: var(--spacing-lg);",
    "  transition: box-shadow 0.2s ease;",
    "\x7d",
    "",
    ".offer:hover \x7b",
    "  box-shadow: 0 4px 12px rgba(0, 0, 0, 0.1);",
    "\x7d",
    "",
    ".offer-header \x7b",
    "  display: flex;",
    "  align-items: flex-start;",
    "  gap: var(--spacing-md);",
    "  margin-bottom: var(--spacing-md);",
    "\x7d",
    "",
    ".offer-logo \x7b",
    "  width: 60px;",
    "  height: 60px;",
    "  object-fit: contain;",
    "  border-radius: var(--border-radius);",
    "\x7d",
    "",
    ".offer-title \x7b",
    "  flex: 1;",
    "\x7d",
    "",
    ".offer-title h3 \x7b",
    "  margin-bottom: var(--spacing-xs);",
    "\x7d",
    "",
    ".offer-rating \x7b",
    "  color: var(--color-accent);",
    "  font-weight: 600;",
    "\x7d",
    "",
    ".offer-description \x7b",
    "  margin-bottom: var(--spacing-md);",
    "  color: var(--color-text-muted);",
    "\x7d",
    "",
    ".offer-features \x7b",
    "  list-style: none;",
    "  margin-bottom: var(--spacing-md);",
    "\x7d",
    "",
    ".offer-features li \x7b",
    "  padding: var(--spacing-xs) 0;",
    "  padding-left: var(--spacing-lg);",
    "  position: relative;",
    "\x7d",
    "",
    ".offer-features li::before \x7b",
    "  content: \"âœ“\";",
    "  position: absolute;",
    "  left: 0;",
    "  color: var(--color-primary);",
    "  font-weight: 600;",
    "\x7d",
    "",
    "/* ===========================================",
    "   Button Styles",
    "   =========================================== */",
    ".btn \x7b",
    "  display: inline-flex;",
    "  align-items: center;",
    "  justify-content: center;",
    "  padding: var(--spacing-sm) var(--spacing-lg);",
    "  font-size: 1rem;",
    "  font-weight: 600;",
    "  border: none;",
    "  border-radius: var(--border-radius);",
    "  cursor: pointer;",
    "  transition: all 0.2s ease;",
    "  text-decoration: none;",
    "\x7d",
    "",
    ".btn-primary \x7b",
    "  background-color: var(--color-primary);",
    "  color: white;",
    "\x7d",
    "",
    ".btn-primary:hover \x7b",
    "  background-color: var(--color-secondary);",
    "  text-decoration: none;",
    "\x7d",
    "",
    ".btn-secondary \x7b",
    "  background-color: var(--color-surface);",
    "  color: var(--color-text);",
    "  border: 1px solid var(--color-border);",
    "\x7d",
    "",
    ".btn-secondary:hover \x7b",
    "  background-color: var(--color-border);",
    "  text-decoration: none;",
    "\x7d",
    "",
    ".btn-large \x7b",
    "  padding: var(--spacing-md) var(--spacing-xl);",
    "  font-size: 1.125rem;",
    "\x7d",
    "",
    ".btn-block \x7b",
    "  display: flex;",
    "  width: 100%;",
    "\x7d",
    "",
    "/* ===========================================",
    "   CTA Styles",
    "   =========================================== */",
    ".cta \x7b",
    "  padding: var(--spacing-2xl) var(--spacing-md);",
    "  background-color: var(--color-primary);",
    "  color: white;",
    "  text-align: center;",
    "\x7d",
    "",
    ".cta h2 \x7b",
    "  color: white;",
    "  margin-bottom: var(--spacing-md);",
    "\x7d",
    "",
    ".cta p \x7b",
    "  color: rgba(255, 255, 255, 0.9);",
    "  margin-bottom: var(--spacing-lg);",
    "\x7d",
    "",
    ".cta .btn-primary \x7b",
    "  background-color: white;",
    "  color: var(--color-primary);",
    "\x7d",
    "",
    "/* ===========================================",
    "   Footer Styles",
    "   =========================================== */",
    ".footer \x7b",
    "  padding: var(--spacing-xl) var(--spacing-md);",
    "  background-color: var(--color-surface);",
    "  border-top: 1px solid var(--color-border);",
    "  text-align: center;",
    "  color: var(--color-text-muted);",
    "  font-size: " ++ typography.small.fontSize ++ ";",
    "\x7d",
    "",
    ".footer a \x7b",
    "  color: var(--color-text-muted);",
    "\x7d",
    "",
    "/* ===========================================",
    "   Responsive Styles",
    "   =========================================== */",
    "@media (max-width: 768px) \x7b",
    "  :root \x7b",
    "    --font-size-base: 15px;",
    "  \x7d",
    "",
    "  h1 \x7b",
    "    font-size: calc(" ++ typography.h1.fontSize ++ " * 0.75);",
    "  \x7d",
    "",
    "  h2 \x7b",
    "    font-size: calc(" ++ typography.h2.fontSize ++ " * 0.8);",
    "  \x7d",
    "",
    "  h3 \x7b",
    "    font-size: calc(" ++ typography.h3.fontSize ++ " * 0.85);",
    "  \x7d",
    "",
    "  .header .container \x7b",
    "    flex-direction: column;",
    "    gap: var(--spacing-md);",
    "  \x7d",
    "",
    "  .nav \x7b",
    "    flex-wrap: wrap;",
    "    justify-content: center;",
    "    gap: var(--spacing-md);",
    "  \x7d",
    "",
    "  .offer-header \x7b",
    "    flex-direction: column;",
    "    align-items: center;",
    "    text-align: center;",
    "  \x7d",
    "",
    "  .btn-large \x7b",
    "    padding: var(--spacing-sm) var(--spacing-lg);",
    "    font-size: 1rem;",
    "  \x7d",
    "\x7d",
    "",
    "@media (max-width: 480px) \x7b",
    "  .section \x7b",
    "    padding: var(--spacing-lg) var(--spacing-sm);",
    "  \x7d",
    "",
    "  .offer \x7b",
    "    padding: var(--spacing-md);",
    "  \x7d",
    "\x7d"]

/-- `CodegenMCP.generateJS` (part_000 lines 618-645), reproduced line by
line as `.trim()` leaves it; apostrophes written `\x27`, braces
`\x7b`/`\x7d`. -/
def generateJS : String :=
  String.intercalate "\n" [
    "/* ===========================================",
    "   Minimal JavaScript - No frameworks",
    "   =========================================== */",
    "(function() \x7b",
    "  \x27use strict\x27;",
    "",
    "  // Smooth scroll for anchor links",
    "  document.querySelectorAll(\x27a[href^=\"#\"]\x27).forEach(function(anchor) \x7b",
    "    anchor.addEventListener(\x27click\x27, function(e) \x7b",
    "      var targetId = this.getAttribute(\x27href\x27);",
    "      if (targetId === \x27#\x27) return;",
    "      var target = document.querySelector(targetId);",
    "      if (target) \x7b",
    "        e.preventDefault();",
    "        target.scrollIntoView(\x7b behavior: \x27smooth\x27 \x7d);",
    "      \x7d",
    "    \x7d);",
    "  \x7d);",
    "",
    "  // Add loaded class for any CSS transitions",
    "  document.addEventListener(\x27DOMContentLoaded\x27, function() \x7b",
    "    document.body.classList.add(\x27loaded\x27);",
    "  \x7d);",
    "\x7d)();"]

/-- `CodegenMCP.generate` (part_000 lines 650-687): the complete document
string.  The sections are emitted in the order produced by the in-place
sort of line 658. -/
def generate (request : CodegenRequest) : String :=
  let css := generateCSS request.layoutPlan
  let js := generateJS
  let sectionsHtml :=
    String.intercalate "\n\n" ((sortSections request.layoutPlan.sections).map generateSection)
  let title := jsOr (some request.pageContent.title) "Plundered Page"
  let description := request.pageContent.metaDescription
  "<!DOCTYPE html>\n<html lang=\"en\">\n<head>\n  <meta charset=\"UTF-8\">\n"
    ++ "  <meta name=\"viewport\" content=\"width=device-width, initial-scale=1.0\">\n"
    ++ "  <meta name=\"description\" content=\"" ++ escapeHtml description ++ "\">\n"
    ++ "  <title>" ++ escapeHtml title ++ "</title>\n\n  <style>\n" ++ css
    ++ "\n  </style>\n</head>\n<body>\n\n" ++ sectionsHtml
    ++ "\n\n  <script>\n" ++ js ++ "\n  </script>\n</body>\n</html>"

/-- `generate` together with its side effect: `Array.prototype.sort` on
line 658 reorders `layoutPlan.sections` **in place**, so a call returns
the document and leaves the request's sections sorted.  The first
component is the returned string, the second the request as it is after
the call. -/
def generateRun (request : CodegenRequest) : String × CodegenRequest :=
  (generate request,
   { request with layoutPlan :=
      { request.layoutPlan with sections := sortSections request.layoutPlan.sections } })

/-! ## DiffTestMCP (part_000 lines 730-962)

The renderer (Playwright) and the pixel comparator (pixelmatch) are the
spec's external black boxes.  A comparison is therefore abstracted by the
data the arithmetic of `compareScreenshots` consumes: the two decoded
image dimensions and the mismatched-pixel count the comparator returns on
the (resized) buffers.  A failure anywhere in the `try` block of `test`
(rendering or comparison throwing) is the `Except.error` case. -/

/-- `DESKTOP_THRESHOLD` (part_000 line 748). -/
def DESKTOP_THRESHOLD : ℚ := 6

/-- `MOBILE_THRESHOLD` (part_000 line 749). -/
def MOBILE_THRESHOLD : ℚ := 8

/-- One comparison of `compareScreenshots`: original and generated image
dimensions plus the mismatch count pixelmatch reports. -/
structure CompareCase where
  mismatchedPixels : Nat
  origWidth : Nat
  origHeight : Nat
  genWidth : Nat
  genHeight : Nat
deriving DecidableEq, Repr

/-- The mismatch percentage computed by `DiffTestMCP.compareScreenshots`
(lines 805-851): comparison dimensions are the larger of the two images in
each direction (the smaller image is resized, lines 814-824), and the
percentage is `mismatchedPixels / totalPixels * 100` (lines 843-845). -/
def compareScreenshots (c : CompareCase) : ℚ :=
  let width := max c.origWidth c.genWidth
  let height := max c.origHeight c.genHeight
  (c.mismatchedPixels : ℚ) / ((width * height : Nat) : ℚ) * 100

/-- `Math.round(x * 100) / 100` (lines 892-893).  `Math.round` rounds to
the nearest integer, half toward positive infinity — exactly Mathlib's
`round`. -/
def round2 (q : ℚ) : ℚ := ((round (q * 100) : ℤ) : ℚ) / 100

/-- `DiffTestResult` (types/index.ts lines 231-238). -/
structure DiffTestResult where
  success : Bool
  desktopMismatch : ℚ
  mobileMismatch : ℚ
  desktopDiffImage : String
  mobileDiffImage : String
  passesThreshold : Bool

/-- `DiffTestMCP.test` (part_000 lines 856-909).  On success the two
mismatch percentages are rounded to two decimals in the result while the
threshold check of lines 886-888 uses the unrounded values; on any failure
the `catch` of lines 899-908 returns the worst-case result instead of
rethrowing.  The diff-image paths are the file names the source joins onto
`outputDir`. -/
def test (run : Except String (CompareCase × CompareCase)) : DiffTestResult :=
  match run with
  | .ok (d, m) =>
    let desktopMismatch := compareScreenshots d
    let mobileMismatch := compareScreenshots m
    let passesThreshold :=
      decide (desktopMismatch ≤ DESKTOP_THRESHOLD) && decide (mobileMismatch ≤ MOBILE_THRESHOLD)
    { success := true
      desktopMismatch := round2 desktopMismatch
      mobileMismatch := round2 mobileMismatch
      desktopDiffImage := "diff-desktop.png"
      mobileDiffImage := "diff-mobile.png"
      passesThreshold := passesThreshold }
  | .error _ =>
    { success := false
      desktopMismatch := 100
      mobileMismatch := 100
      desktopDiffImage := ""
      mobileDiffImage := ""
      passesThreshold := false }

/-! ## VisionLayoutMCP.buildTypographyPlan (VisionLayoutMCP.ts lines 292-325) -/

/-- The fields of a computed-style snapshot read by
`buildTypographyPlan` (`styles.fontSize`, `styles.fontWeight`,
`styles.lineHeight`; the snapshot is a `Record<string, string>` whose
other keys this function never reads). -/
structure StyleSnapshot where
  fontSize : Option String
  fontWeight : Option String
  lineHeight : Option String
deriving DecidableEq, Repr

/-- The fixed default plan of lines 294-303. -/
def defaultTypographyPlan : TypographyPlan :=
  { baseSize := "16px"
    scale := 1.25
    h1 := ⟨"2.5rem", "700", "1.2", "1rem"⟩
    h2 := ⟨"2rem", "600", "1.3", "0.75rem"⟩
    h3 := ⟨"1.5rem", "600", "1.4", "0.5rem"⟩
    h4 := ⟨"1.25rem", "500", "1.4", "0.5rem"⟩
    body := ⟨"1rem", "400", "1.6", "1rem"⟩
    small := ⟨"0.875rem", "400", "1.5", "0.5rem"⟩ }

/-- Lines 309-311: `plan.h1.x = styles.x || plan.h1.x` for size, weight
and line height. -/
def h1Update (cur : TypographyLevel) (styles : StyleSnapshot) : TypographyLevel :=
  { cur with
    fontSize := jsOr styles.fontSize cur.fontSize
    fontWeight := jsOr styles.fontWeight cur.fontWeight
    lineHeight := jsOr styles.lineHeight cur.lineHeight }

/-- Lines 313-314 (also 316-317 for h3): size and weight only. -/
def h2Update (cur : TypographyLevel) (styles : StyleSnapshot) : TypographyLevel :=
  { cur with
    fontSize := jsOr styles.fontSize cur.fontSize
    fontWeight := jsOr styles.fontWeight cur.fontWeight }

/-- Lines 319-320: the `p` branch updates body size and line height. -/
def bodyUpdate (cur : TypographyLevel) (styles : StyleSnapshot) : TypographyLevel :=
  { cur with
    fontSize := jsOr styles.fontSize cur.fontSize
    lineHeight := jsOr styles.lineHeight cur.lineHeight }

/-- One turn of the `for (const [selector, data] of Object.entries(...))`
loop of lines 306-322: the `else if` chain on `selector.startsWith`. -/
def typographyStep (plan : TypographyPlan) (entry : String × StyleSnapshot) : TypographyPlan :=
  if jsStartsWith entry.1 "h1" then { plan with h1 := h1Update plan.h1 entry.2 }
  else if jsStartsWith entry.1 "h2" then { plan with h2 := h2Update plan.h2 entry.2 }
  else if jsStartsWith entry.1 "h3" then { plan with h3 := h2Update plan.h3 entry.2 }
  else if jsStartsWith entry.1 "p" then { plan with body := bodyUpdate plan.body entry.2 }
  else plan

/-- `VisionLayoutMCP.buildTypographyPlan` (lines 292-325).  The computed
style map is its `Object.entries` view: an association list in insertion
order.  Every matching entry runs its branch — there is no break and no
"already seen" flag. -/
def buildTypographyPlan (computedStyles : List (String × StyleSnapshot)) : TypographyPlan :=
  computedStyles.foldl typographyStep defaultTypographyPlan

/-- Modelled from the spec: the typography extraction the spec describes,
in which "first match per level wins, later matches are ignored" — each
level is overwritten once, from the first computed-style entry whose
selector begins with that level's tag, and all later matching entries are
ignored.  This definition follows the spec's words and exists only to be
compared with `buildTypographyPlan`, which is the code's behaviour. -/
def buildTypographyPlanFirstMatch (computedStyles : List (String × StyleSnapshot)) : TypographyPlan :=
  let d := defaultTypographyPlan
  { d with
    h1 := match computedStyles.find? (fun e => jsStartsWith e.1 "h1") with
          | some e => h1Update d.h1 e.2
          | none => d.h1
    h2 := match computedStyles.find? (fun e => jsStartsWith e.1 "h2") with
          | some e => h2Update d.h2 e.2
          | none => d.h2
    h3 := match computedStyles.find? (fun e => jsStartsWith e.1 "h3") with
          | some e => h2Update d.h3 e.2
          | none => d.h3
    body := match computedStyles.find? (fun e => jsStartsWith e.1 "p") with
          | some e => bodyUpdate d.body e.2
          | none => d.body }

/-! ## VisionLayoutMCP.refine (VisionLayoutMCP.ts lines 446-504)

`refine` first takes a deep copy (`JSON.parse(JSON.stringify(...))`,
line 447) and then mutates only the copy; on this model the deep copy of a
plan is the plan itself, and `refine` is the pure function the copy is
mutated into.  JavaScript number-to-string conversions are abstracted by
exact rendering of the rational value (`formatNum`, `toFixed2`): the
verified frame property does not depend on the rendered digits. -/

/-- Digits to a natural number. -/
def digitsToNat (ds : List Char) : Nat :=
  ds.foldl (fun acc c => acc * 10 + (c.toNat - 48)) 0

/-- JavaScript `parseFloat`: skip leading whitespace, optional sign, then
the longest `digits[.digits]` prefix; `none` is `NaN` (no digit consumed).
Exponent suffixes are not modelled — no caller produces them. -/
def jsParseFloat (s : String) : Option ℚ :=
  let l := s.data.dropWhile (fun c => c = ' ' || c = '\t' || c = '\n' || c = '\r')
  let signAndRest : ℚ × List Char :=
    match l with
    | '-' :: rest => (-1, rest)
    | '+' :: rest => (1, rest)
    | _ => (1, l)
  let sign := signAndRest.1
  let l2 := signAndRest.2
  let intPart := l2.takeWhile Char.isDigit
  let l3 := l2.dropWhile Char.isDigit
  match l3 with
  | '.' :: rest =>
    let fracPart := rest.takeWhile Char.isDigit
    if intPart.isEmpty && fracPart.isEmpty then none
    else some (sign * ((digitsToNat intPart : ℚ)
      + (digitsToNat fracPart : ℚ) / (10 : ℚ) ^ fracPart.length))
  | _ =>
    if intPart.isEmpty then none
    else some (sign * (digitsToNat intPart : ℚ))

/-- `parseFloat(x) || 2` (refine line 454): `NaN` and `0` are falsy. -/
def parseFloatOr2 (s : String) : ℚ :=
  match jsParseFloat s with
  | some v => if v = 0 then 2 else v
  | none => 2

/-- Abstraction of JavaScript number-to-string conversion (template
interpolation and `String(...)`): exact decimal/rational rendering. -/
def formatNum (q : ℚ) : String := toString q

/-- JavaScript `Number.prototype.toFixed(2)` for the nonnegative values
`scaleFontSize` produces. -/
def toFixed2 (q : ℚ) : String :=
  let n : ℤ := round (q * 100)
  let ip := n / 100
  let fp := (n % 100).natAbs
  toString ip ++ "." ++ (if fp < 10 then "0" else "") ++ toString fp

/-- The `^([\d.]+)(rem|px|em)$` match of `scaleFontSize` (line 498):
the numeric prefix and the unit, when the whole string matches. -/
def numericPrefixUnit (fontSize : String) : Option (String × String) :=
  let check (unit : String) : Option (String × String) :=
    if unit.data.isSuffixOf fontSize.data then
      let pre := fontSize.data.take (fontSize.data.length - unit.data.length)
      if !pre.isEmpty && pre.all (fun c => c.isDigit || c = '.') then
        some (String.mk pre, unit)
      else none
    else none
  match check "rem" with
  | some r => some r
  | none =>
    match check "px" with
    | some r => some r
    | none => check "em"

/-- `VisionLayoutMCP.scaleFontSize` (lines 497-504). -/
def scaleFontSize (fontSize : String) (scale : ℚ) : String :=
  match numericPrefixUnit fontSize with
  | some (pre, unit) =>
    (match jsParseFloat pre with
     | some v => toFixed2 (v * scale)
     | none => "NaN") ++ unit
  | none => fontSize

/-- refine lines 450-458: when the token mentions `spacing`, every section
with a truthy `styles.padding` gets `${(parseFloat(p) || 2) * 1.1}rem 1rem`. -/
def applySpacing (plan : LayoutPlan) : LayoutPlan :=
  { plan with sections := plan.sections.map fun s =>
      match s.styles.padding with
      | some p =>
        if p ≠ "" then
          { s with styles := { s.styles with
              padding := some (formatNum (parseFloatOr2 p * 1.1) ++ "rem 1rem") } }
        else s
      | none => s }

/-- refine lines 460-467: scale h1/h2/h3/body font sizes by 1.05 or 0.95. -/
def applyFont (plan : LayoutPlan) (adjustment : String) : LayoutPlan :=
  let scale : ℚ := if jsIncludes adjustment "larger" then 1.05 else 0.95
  { plan with typography := { plan.typography with
      h1 := { plan.typography.h1 with fontSize := scaleFontSize plan.typography.h1.fontSize scale }
      h2 := { plan.typography.h2 with fontSize := scaleFontSize plan.typography.h2.fontSize scale }
      h3 := { plan.typography.h3 with fontSize := scaleFontSize plan.typography.h3.fontSize scale }
      body := { plan.typography.body with
        fontSize := scaleFontSize plan.typography.body.fontSize scale } } }

/-- refine lines 469-472: `String(parseFloat(lineHeight) * scale)` on the
body level (`NaN` when the stored line height has no numeric prefix). -/
def applyLineHeight (plan : LayoutPlan) (adjustment : String) : LayoutPlan :=
  let scale : ℚ := if jsIncludes adjustment "increase" then 1.1 else 0.9
  { plan with typography := { plan.typography with
      body := { plan.typography.body with
        lineHeight :=
          match jsParseFloat plan.typography.body.lineHeight with
          | some v => formatNum (v * scale)
          | none => "NaN" } } }

/-- refine lines 474-481: widen/narrow `layout.maxWidth` on offer
sections. -/
def applyCardWidth (plan : LayoutPlan) (adjustment : String) : LayoutPlan :=
  { plan with sections := plan.sections.map fun s =>
      if s.type = .offerList || s.type = .offerCard then
        { s with layout := { s.layout with
            maxWidth := some (if jsIncludes adjustment "wider" then "900px" else "700px") } }
      else s }

/-- refine lines 483-489: set `layout.align` on every section. -/
def applyAlignment (plan : LayoutPlan) (adjustment : String) : LayoutPlan :=
  { plan with sections := plan.sections.map fun s =>
      { s with layout := { s.layout with
          align := some (if jsIncludes adjustment "center" then "center" else "flex-start") } } }

/-- One turn of the `for (const adjustment of adjustments)` loop
(lines 449-490): the five independent `if (adjustment.includes(...))`
blocks, applied in source order. -/
def applyAdjustment (plan : LayoutPlan) (adjustment : String) : LayoutPlan :=
  let p1 := if jsIncludes adjustment "spacing" then applySpacing plan else plan
  let p2 := if jsIncludes adjustment "font" then applyFont p1 adjustment else p1
  let p3 := if jsIncludes adjustment "line-height" then applyLineHeight p2 adjustment else p2
  let p4 := if jsIncludes adjustment "card-width" then applyCardWidth p3 adjustment else p3
  if jsIncludes adjustment "alignment" then applyAlignment p4 adjustment else p4

/-- `VisionLayoutMCP.refine` (lines 446-492). -/
def refine (layoutPlan : LayoutPlan) (adjustments : List String) : LayoutPlan :=
  adjustments.foldl applyAdjustment layoutPlan

/-! ## The verification controller `runVerification`
(part_001 view of VisionLayoutMCP.ts, lines 508-783)

The controller's best-candidate tracking (lines 573-683) is a fold over
the iterations that actually ran: each iteration contributes its two
(rounded) mismatch percentages and the generated document, and the
mutable `bestIteration`/`bestMismatch`/`bestHtml` variables are the fold
state.  The loop bound and early exit (lines 630-708) are `runLoop`. -/

/-- What one executed iteration contributes to best-candidate tracking:
`diffResult.desktopMismatch`, `diffResult.mobileMismatch` and
`codegenResult.html`. -/
structure IterationOutcome where
  desktop : ℚ
  mobile : ℚ
  html : String

/-- The controller's best-candidate variables (lines 574-576). -/
structure BestState where
  bestIteration : Nat
  bestDesktop : ℚ
  bestMobile : ℚ
  bestHtml : String

/-- `desktopMismatch + mobileMismatch` of one iteration (line 672). -/
def sumOutcome (o : IterationOutcome) : ℚ := o.desktop + o.mobile

/-- `bestMismatch.desktop + bestMismatch.mobile` (line 673). -/
def sumBest (st : BestState) : ℚ := st.bestDesktop + st.bestMobile

/-- `bestIteration = 0`, `bestMismatch = { desktop: 100, mobile: 100 }`,
`bestHtml = ''` (lines 574-576). -/
def initialBest : BestState := ⟨0, 100, 100, ""⟩

/-- Lines 672-683: replace the best candidate exactly when this
iteration's summed mismatch is strictly lower. -/
def updateBest (st : BestState) (i : Nat) (o : IterationOutcome) : BestState :=
  if sumOutcome o < sumBest st then ⟨i, o.desktop, o.mobile, o.html⟩ else st

/-- The best-tracking fold over the executed iterations, numbering them
from `i`. -/
def runBestFrom (st : BestState) (i : Nat) : List IterationOutcome → BestState
  | [] => st
  | o :: rest => runBestFrom (updateBest st i o) (i + 1) rest

/-- Best-candidate state after a run whose iterations produced the given
outcomes; the artifact written at loop exit (line 712) is its
`bestHtml`. -/
def runBest (outcomes : List IterationOutcome) : BestState :=
  runBestFrom initialBest 1 outcomes

/-- `MAX_ITERATIONS` (line 535). -/
def MAX_ITERATIONS : Nat := 3

/-- The `while (iteration < MAX_ITERATIONS)` loop of lines 630-708,
reduced to what controls it: `iteration++` at the top of the body, `break`
when the iteration's verdict passes.  `verdict k` is
`diffResult.passesThreshold` of iteration `k`; the returned value is the
final `iteration`, i.e. how many Generate→Score cycles ran. -/
def runLoop (verdict : Nat → Bool) (iteration : Nat) : Nat :=
  if iteration < MAX_ITERATIONS then
    let next := iteration + 1
    if verdict next then next else runLoop verdict next
  else iteration
termination_by MAX_ITERATIONS - iteration

/-- Number of Generate→Score cycles the controller executes. -/
def iterationsExecuted (verdict : Nat → Bool) : Nat := runLoop verdict 0

/-! ## Interpolation sites of the generator

For the escaping claim, the user-controlled strings that `generateElement`
and `generateSection` place into text or attribute positions of the
document are collected in two families: the ones that pass through
`escapeHtml` before interpolation, and the ones interpolated verbatim.
Each entry names the interpolation site in the source. -/

mutual
/-- The raw strings a `generateElement` call feeds through `escapeHtml`:
`content` of heading (line 520), paragraph (523), button/link (533),
list-item (542) and text/default (561) arms; a truthy `alt` (line 526);
every `dataAttributes` value (line 512, emitted only by the card arm). -/
def elementEscapedSources : LayoutElement → List String
  | .mk _ ty _ content _ alt _ children _ dataAttributes =>
    match ty with
    | .heading => [content.getD ""]
    | .paragraph => [content.getD ""]
    | .image =>
      match alt with
      | some a => if a ≠ "" then [a] else []
      | none => []
    | .button => [content.getD ""]
    | .link => [content.getD ""]
    | .list => elementsEscapedSources children
    | .listItem => [content.getD ""]
    | .card => dataAttributes.map (fun p => p.2) ++ elementsEscapedSources children
    | .container => elementsEscapedSources children
    | .divider => []
    | .icon => [content.getD ""]
    | .text => [content.getD ""]

/-- `elementEscapedSources` over a child list. -/
def elementsEscapedSources : List LayoutElement → List String
  | [] => []
  | e :: es => elementEscapedSources e ++ elementsEscapedSources es
end

mutual
/-- The strings a `generateElement` call interpolates **verbatim** into
attribute positions: the inline style string (line 515, every arm),
`src || ''` of the image arm (line 527), `href || '#'` of the button/link
arm (lines 531-533). -/
def elementRawValues : LayoutElement → List String
  | .mk _ ty _ _ src _ href children styles _ =>
    styleEntriesStr styles ::
      match ty with
      | .image => [src.getD ""]
      | .button => [jsOr href "#"]
      | .link => [jsOr href "#"]
      | .list => elementsRawValues children
      | .card => elementsRawValues children
      | .container => elementsRawValues children
      | _ => []

/-- `elementRawValues` over a child list. -/
def elementsRawValues : List LayoutElement → List String
  | [] => []
  | e :: es => elementRawValues e ++ elementsRawValues es
end

/-- Escaped interpolations of a section: only its children contribute
(`generateSection` escapes nothing itself). -/
def sectionEscapedSources (s : LayoutSection) : List String :=
  elementsEscapedSources s.children

/-- Verbatim interpolations of a section: its style string (line 585),
the `data-offer-id` value — the raw section `id` — when the type is
`offer-card` (line 588), and its children's. -/
def sectionRawValues (s : LayoutSection) : List String :=
  styleEntriesStr (sectionStyleEntries s.styles) ::
    (if s.type = .offerCard then [s.id] else []) ++ elementsRawValues s.children

/-- `sectionEscapedSources` over a section list. -/
def sectionsEscapedSources : List LayoutSection → List String
  | [] => []
  | s :: ss => sectionEscapedSources s ++ sectionsEscapedSources ss

/-- `sectionRawValues` over a section list. -/
def sectionsRawValues : List LayoutSection → List String
  | [] => []
  | s :: ss => sectionRawValues s ++ sectionsRawValues ss

/-- All escaped-before-interpolation sources of a plan's document. -/
def planEscapedSources (plan : LayoutPlan) : List String :=
  sectionsEscapedSources plan.sections

/-- All verbatim interpolations of a plan's document. -/
def planRawValues (plan : LayoutPlan) : List String :=
  sectionsRawValues plan.sections

/-! ## Concrete inputs used by scenarios, counterexamples and witnesses -/

/-- An all-default layout configuration. -/
def emptyLayoutConfig : LayoutConfig :=
  ⟨"block", none, none, none, none, none, none, none, none⟩

/-- A section-styles object with no properties set. -/
def emptySectionStyles : SectionStyles := ⟨none, none, none, none, none, none⟩

/-- The fixed viewports of `VisionLayoutMCP.analyze` (lines 431-434). -/
def demoViewport : ViewportPlan := ⟨⟨1440, 900⟩, ⟨390, 844⟩⟩

/-- Arbitrary global styles for concrete plans. -/
def demoGlobalStyles : GlobalStyles :=
  ⟨"#ffffff", "#333333", "sans-serif", "1.6", "1200px"⟩

/-- The fixed fallback color scheme of `buildColorScheme`. -/
def demoColorScheme : ColorScheme :=
  ⟨"#007bff", "#6c757d", "#ffc107", "#ffffff", "#f8f9fa", "#212529", "#6c757d", "#dee2e6"⟩

/-- A childless content section with the given id and order. -/
def demoSection (sid : String) (ord : Int) : LayoutSection :=
  ⟨sid, .content, ord, emptyLayoutConfig, [], emptySectionStyles⟩

/-- A plan whose stored section sequence has orders `2, 0, 1`. -/
def demoPlan : LayoutPlan :=
  ⟨demoViewport, [demoSection "a" 2, demoSection "b" 0, demoSection "c" 1],
    demoGlobalStyles, defaultTypographyPlan, demoColorScheme⟩

/-- A request wrapping `demoPlan`. -/
def demoRequest : CodegenRequest := ⟨demoPlan, ⟨"Title", "Description"⟩⟩

/-- A plan whose stored section sequence is already in ascending order. -/
def sortedPlan : LayoutPlan :=
  ⟨demoViewport, [demoSection "a" 0, demoSection "b" 1, demoSection "c" 2],
    demoGlobalStyles, defaultTypographyPlan, demoColorScheme⟩

/-- A request wrapping `sortedPlan`. -/
def sortedRequest : CodegenRequest := ⟨sortedPlan, ⟨"Title", "Description"⟩⟩

/-- An image element whose `src` contains a raw double quote. -/
def imgElement : LayoutElement :=
  .mk "img-0" .image "img" none (some "x\" y") none none [] [] []

/-- A plan carrying `imgElement`. -/
def cexPlan : LayoutPlan :=
  ⟨demoViewport, [⟨"s0", .content, 0, emptyLayoutConfig, [imgElement], emptySectionStyles⟩],
    demoGlobalStyles, defaultTypographyPlan, demoColorScheme⟩

/-- A heading element whose text content contains `<` and `&`. -/
def headingElement : LayoutElement :=
  .mk "h-0" .heading "h1" (some "a<b & c") none none none [] [] []

/-- A plan carrying `headingElement`. -/
def escPlan : LayoutPlan :=
  ⟨demoViewport, [⟨"s0", .content, 0, emptyLayoutConfig, [headingElement], emptySectionStyles⟩],
    demoGlobalStyles, defaultTypographyPlan, demoColorScheme⟩

/-! ## The claims under test, as stated -/

/-- Claim C2 as stated: for every Layout Model, no value the generator
places into a text or attribute position of the document — whether it went
through `escapeHtml` or not (`src`, `href`, section ids, style strings) —
contains an unescaped `<`, `>`, `&`, `"`, `'`. -/
def escapingClaim : Prop :=
  ∀ plan : LayoutPlan,
    ∀ v ∈ (planEscapedSources plan).map escapeHtml ++ planRawValues plan,
      specialFree v.data = true

/-- Claim C10 as stated: running the generator leaves the input Layout
Model (and the rest of the request) entirely unchanged. -/
def generatePurityClaim : Prop :=
  ∀ request : CodegenRequest, (generateRun request).2 = request

/-- Claim C8 as stated: the code's typography extraction agrees with the
spec's first-match-per-level extraction on every computed-style map. -/
def typographyFirstMatchClaim : Prop :=
  ∀ computedStyles : List (String × StyleSnapshot),
    buildTypographyPlan computedStyles = buildTypographyPlanFirstMatch computedStyles

/-- Claim C1 as stated: over any nonempty run with per-viewport mismatches
in `[0, 100]`, (a) after every prefix the recorded best sum is the minimum
of the prefix sums, and (b) the artifact emitted at loop exit is the HTML
of a best-scoring iteration. -/
def bestCandidateClaim : Prop :=
  ∀ outcomes : List IterationOutcome,
    (∀ o ∈ outcomes, 0 ≤ o.desktop ∧ o.desktop ≤ 100 ∧ 0 ≤ o.mobile ∧ o.mobile ≤ 100) →
    outcomes ≠ [] →
    (∀ k, 1 ≤ k → k ≤ outcomes.length →
      (∀ o ∈ outcomes.take k, sumBest (runBest (outcomes.take k)) ≤ sumOutcome o) ∧
      (∃ o ∈ outcomes.take k, sumBest (runBest (outcomes.take k)) = sumOutcome o)) ∧
    (∃ j, ∃ hj : j < outcomes.length,
      sumOutcome (outcomes.get ⟨j, hj⟩) = sumBest (runBest outcomes) ∧
      (runBest outcomes).bestHtml = (outcomes.get ⟨j, hj⟩).html)

/-- The structural fields of a section that refinement must not touch:
`id`, `type`, `order` and the whole child tree (elements carry `tag`,
`content`, `src`, `href` and nesting). -/
def sectionStructure (s : LayoutSection) : String × SectionType × Int × List LayoutElement :=
  (s.id, s.type, s.order, s.children)

/-- Two computed-style entries whose selectors both begin with `h1` but
carry different font sizes. -/
def cexStyles : List (String × StyleSnapshot) :=
  [("h1", ⟨some "10px", none, none⟩), ("h1.hero", ⟨some "20px", none, none⟩)]

/-- The first entry of `cexStyles` alone. -/
def cexStylesBase : List (String × StyleSnapshot) :=
  [("h1", ⟨some "10px", none, none⟩)]

/-- A run of one iteration that scores the worst-possible `100 + 100`. -/
def worstRun : List IterationOutcome :=
  [⟨100, 100, "<!DOCTYPE html>"⟩]

/-- A small two-iteration run with improving scores. -/
def demoOutcomes : List IterationOutcome := [⟨3, 4, "a"⟩, ⟨1, 2, "b"⟩]

/-! # Theorems

## Escaping: `escapeHtml` output has no unescaped specials -/
theorem replaceChar_append (c : Char) (r a b : List Char) :
    replaceChar c r (a ++ b) = replaceChar c r a ++ replaceChar c r b := by
  induction a with
  | nil => simp [replaceChar]
  | cons x xs ih => simp [replaceChar, ih]

theorem escapeChars_nil : escapeChars [] = [] := rfl

theorem escapeChars_cons (x : Char) (l : List Char) :
    escapeChars (x :: l) = escChar x ++ escapeChars l := by
  unfold escapeChars escChar
  by_cases h1 : x = '&'
  · subst h1
    simp [replaceChar, replaceChar_append, ampEnt, ltEnt, gtEnt, quotEnt, aposEnt, singleQuote]
  · by_cases h2 : x = '<'
    · subst h2
      simp [replaceChar, replaceChar_append, ampEnt, ltEnt, gtEnt, quotEnt, aposEnt, singleQuote]
    · by_cases h3 : x = '>'
      · subst h3
        simp [replaceChar, replaceChar_append, ampEnt, ltEnt, gtEnt, quotEnt, aposEnt, singleQuote]
      · by_cases h4 : x = '"'
        · subst h4
          simp [replaceChar, replaceChar_append, ampEnt, ltEnt, gtEnt, quotEnt, aposEnt, singleQuote]
        · by_cases h5 : x = singleQuote
          · subst h5
            simp [replaceChar, replaceChar_append, ampEnt, ltEnt, gtEnt, quotEnt, aposEnt, singleQuote]
          · simp [replaceChar, replaceChar_append, h1, h2, h3, h4, h5]

theorem specialFree_amp (r : List Char) :
    specialFree ('&' :: 'a' :: 'm' :: 'p' :: ';' :: r) = specialFree r := rfl

theorem specialFree_lt (r : List Char) :
    specialFree ('&' :: 'l' :: 't' :: ';' :: r) = specialFree r := rfl

theorem specialFree_gt (r : List Char) :
    specialFree ('&' :: 'g' :: 't' :: ';' :: r) = specialFree r := rfl

theorem specialFree_quot (r : List Char) :
    specialFree ('&' :: 'q' :: 'u' :: 'o' :: 't' :: ';' :: r) = specialFree r := rfl

theorem specialFree_apos (r : List Char) :
    specialFree ('&' :: '#' :: '0' :: '3' :: '9' :: ';' :: r) = specialFree r := rfl

theorem specialFree_plain (x : Char) (r : List Char) (h1 : x ≠ '&') (h2 : x ≠ '<')
    (h3 : x ≠ '>') (h4 : x ≠ '"') (h5 : x ≠ singleQuote) :
    specialFree (x :: r) = specialFree r := by
  rw [specialFree.eq_def]
  simp [h1, h2, h3, h4, h5]

theorem specialFree_escChar_append (x : Char) (r : List Char) :
    specialFree (escChar x ++ r) = specialFree r := by
  unfold escChar
  by_cases h1 : x = '&'
  · simp only [h1, if_pos rfl, ampEnt]
    exact specialFree_amp r
  · by_cases h2 : x = '<'
    · simp only [h1, h2, if_neg, if_pos rfl, ltEnt, ite_false, ite_true]
      exact specialFree_lt r
    · by_cases h3 : x = '>'
      · simp only [h1, h2, h3, gtEnt, ite_false, ite_true]
        exact specialFree_gt r
      · by_cases h4 : x = '"'
        · simp only [h1, h2, h3, h4, quotEnt, ite_false, ite_true]
          exact specialFree_quot r
        · by_cases h5 : x = singleQuote
          · simp only [h1, h2, h3, h4, h5, aposEnt, ite_false, ite_true]
            exact specialFree_apos r
          · simp only [h1, h2, h3, h4, h5, ite_false, List.singleton_append]
            exact specialFree_plain x r h1 h2 h3 h4 h5

/-- Everything `escapeHtml` produces is free of unescaped specials. -/
theorem specialFree_escapeChars (l : List Char) : specialFree (escapeChars l) = true := by
  induction l with
  | nil => rfl
  | cons x xs ih => rw [escapeChars_cons, specialFree_escChar_append, ih]

/-- `escapeHtml` output never contains an unescaped `<`, `>`, `&`, `"`, `'`. -/
theorem specialFree_escapeHtml (s : String) : specialFree (escapeHtml s).data = true :=
  specialFree_escapeChars s.data
/-! ## Sorting helpers -/

theorem sectionLE_trans (a b c : LayoutSection) (hab : sectionLE a b) (hbc : sectionLE b c) :
    sectionLE a c := by
  simp only [sectionLE, decide_eq_true_eq] at *
  omega

theorem sectionLE_total (a b : LayoutSection) : sectionLE a b || sectionLE b a := by
  simp only [sectionLE]
  by_cases h : a.order ≤ b.order
  · simp [h]
  · simp [h]
    omega

theorem sortSections_perm (l : List LayoutSection) : List.Perm (sortSections l) l :=
  List.mergeSort_perm l sectionLE

theorem sortSections_pairwise (l : List LayoutSection) :
    (sortSections l).Pairwise (fun a b => sectionLE a b = true) :=
  List.sorted_mergeSort sectionLE_trans sectionLE_total l

theorem sortSections_orders_sorted (l : List LayoutSection) :
    ((sortSections l).map LayoutSection.order).Pairwise (· ≤ ·) := by
  rw [List.pairwise_map]
  exact (sortSections_pairwise l).imp fun hab => by simpa [sectionLE] using hab

theorem sortSections_idem (l : List LayoutSection) :
    sortSections (sortSections l) = sortSections l :=
  List.mergeSort_of_sorted (sortSections_pairwise l)

theorem sortSections_of_sorted (l : List LayoutSection)
    (h : l.Pairwise (fun a b => a.order ≤ b.order)) : sortSections l = l :=
  List.mergeSort_of_sorted (h.imp fun hab => by simpa [sectionLE] using hab)

theorem demo_sorted_orders : (sortSections demoPlan.sections).map LayoutSection.order = [0, 1, 2] :=
  List.eq_of_perm_of_sorted
    (((sortSections_perm demoPlan.sections).map LayoutSection.order).trans (by decide))
    (sortSections_orders_sorted demoPlan.sections) (by decide)

/-! ## Claims C2, C3, C4, C10 -/

/-- C2 (corrected, counterexample): the escaping claim as stated is false —
`generateElement` interpolates an image `src` verbatim (part_000 line 527),
so a `src` containing a raw `"` reaches an attribute position unescaped. -/
theorem C2_escaping_counterexample : ¬ escapingClaim := by
  intro h
  exact absurd (h cexPlan "x\" y" (by decide)) (by decide)

/-- C2 (amended): every string the generator passes through `escapeHtml`
before interpolating — text content of headings, paragraphs, list items,
buttons, links and spans, image `alt` text, and element `dataAttributes`
values — contains no unescaped `<`, `>`, `&`, `"`, `'` in the emitted
document; image `src`, link `href`, the section-level `data-offer-id`
value, and inline style strings are interpolated verbatim and are not
covered. -/
theorem C2_escaping (plan : LayoutPlan) :
    ∀ v ∈ (planEscapedSources plan).map escapeHtml, specialFree v.data = true := by
  intro v hv
  rcases List.mem_map.mp hv with ⟨s, _, rfl⟩
  exact specialFree_escapeHtml s

/-- Witness for `C2_escaping` at `escPlan`, whose heading content is
`a<b & c`. -/
theorem C2_escaping_witness : specialFree (escapeHtml "a<b & c").data = true :=
  C2_escaping escPlan (escapeHtml "a<b & c") (by decide)

theorem generateCSS_ignores_sections (p : LayoutPlan) (s : List LayoutSection) :
    generateCSS { p with sections := s } = generateCSS p := rfl

/-- C3 (confirmed): generation is deterministic — the call returns
`generate request`, and a second call on the very same (now
sorted-in-place) request returns the byte-identical document, because the
emitted text depends on the sections only through the stable sort by
`order` and sorting is idempotent. -/
theorem C3_generator_deterministic (request : CodegenRequest) :
    (generateRun request).1 = generate request ∧
    generate (generateRun request).2 = generate request := by
  refine ⟨rfl, ?_⟩
  show generate { request with layoutPlan :=
    { request.layoutPlan with sections := sortSections request.layoutPlan.sections } }
      = generate request
  unfold generate
  simp only [sortSections_idem, generateCSS_ignores_sections]

/-- C4 (confirmed): for every Layout Model satisfying the data-model
invariant that section `order`s are unique, the generator emits sections
in strictly ascending `order`; and the concrete plan with stored orders
`2, 0, 1` is emitted in the textual order `0, 1, 2`. -/
theorem C4_section_order :
    (∀ plan : LayoutPlan, (plan.sections.map LayoutSection.order).Nodup →
      ((sortSections plan.sections).map LayoutSection.order).Pairwise (· < ·)) ∧
    (sortSections demoPlan.sections).map LayoutSection.order = [0, 1, 2] := by
  constructor
  · intro plan hnd
    have hle := sortSections_orders_sorted plan.sections
    have hperm : List.Perm ((sortSections plan.sections).map LayoutSection.order)
        (plan.sections.map LayoutSection.order) :=
      (sortSections_perm plan.sections).map LayoutSection.order
    have hnd2 : ((sortSections plan.sections).map LayoutSection.order).Nodup :=
      hperm.nodup_iff.mpr hnd
    have hne : ((sortSections plan.sections).map LayoutSection.order).Pairwise (· ≠ ·) := hnd2
    exact (hle.and hne).imp fun hab => lt_of_le_of_ne hab.1 hab.2
  · exact demo_sorted_orders

/-- Witness for `C4_section_order` at `demoPlan` (orders `2, 0, 1` are
distinct). -/
theorem C4_section_order_witness :
    ((sortSections demoPlan.sections).map LayoutSection.order).Pairwise (· < ·) :=
  C4_section_order.1 demoPlan (by decide)

/-- C10 (corrected, counterexample): generation does *not* leave the input
model unchanged — `layoutPlan.sections.sort(...)` (part_000 line 658)
sorts the stored sequence in place, so a request whose sections are stored
in order `2, 0, 1` comes back reordered. -/
theorem C10_purity_counterexample : ¬ generatePurityClaim := by
  intro h
  have h2 : (sortSections demoPlan.sections).map LayoutSection.order
      = demoPlan.sections.map LayoutSection.order :=
    congrArg (fun r => r.layoutPlan.sections.map LayoutSection.order) (h demoRequest)
  rw [demo_sorted_orders] at h2
  exact absurd h2 (by decide)

/-- C10 (amended): the only mutation `generate` performs on its input is
the in-place stable sort of the `sections` sequence by ascending `order`:
the post-call sections are a permutation of the input's, every other part
of the request is untouched, and a request whose sections are already in
ascending order is returned entirely unchanged. -/
theorem C10_purity (request : CodegenRequest) :
    List.Perm (generateRun request).2.layoutPlan.sections request.layoutPlan.sections ∧
    (generateRun request).2.layoutPlan.viewport = request.layoutPlan.viewport ∧
    (generateRun request).2.layoutPlan.globalStyles = request.layoutPlan.globalStyles ∧
    (generateRun request).2.layoutPlan.typography = request.layoutPlan.typography ∧
    (generateRun request).2.layoutPlan.colorScheme = request.layoutPlan.colorScheme ∧
    (generateRun request).2.pageContent = request.pageContent ∧
    (request.layoutPlan.sections.Pairwise (fun a b => a.order ≤ b.order) →
      (generateRun request).2 = request) := by
  refine ⟨sortSections_perm _, rfl, rfl, rfl, rfl, rfl, ?_⟩
  intro hsorted
  show ({ request with layoutPlan :=
    { request.layoutPlan with sections := sortSections request.layoutPlan.sections } }
      : CodegenRequest) = request
  rw [sortSections_of_sorted _ hsorted]

/-- Witness for `C10_purity` at `sortedRequest` (orders `0, 1, 2`). -/
theorem C10_purity_witness : (generateRun sortedRequest).2 = sortedRequest :=
  (C10_purity sortedRequest).2.2.2.2.2.2 (by decide)

/-! ## Claims C5, C6 (Visual Scorer) -/

/-- C5 (confirmed): on a successful comparison the reported per-viewport
mismatch is `mismatched ÷ total × 100` rounded to two decimals (the total
being the product of the per-direction maxima of the two image sizes, per
the resize step), and the verdict is true exactly when the (unrounded)
desktop mismatch is ≤ 6 and the mobile mismatch is ≤ 8.  The positivity
hypotheses restrict to real screenshots (a zero-pixel image would make the
JavaScript arithmetic produce `NaN`, outside this model). -/
theorem C5_scorer_verdict (d m : CompareCase)
    (hd : 0 < max d.origWidth d.genWidth * max d.origHeight d.genHeight)
    (hm : 0 < max m.origWidth m.genWidth * max m.origHeight m.genHeight) :
    (test (.ok (d, m))).success = true ∧
    (test (.ok (d, m))).desktopMismatch
      = round2 ((d.mismatchedPixels : ℚ)
          / ((max d.origWidth d.genWidth * max d.origHeight d.genHeight : Nat) : ℚ) * 100) ∧
    (test (.ok (d, m))).mobileMismatch
      = round2 ((m.mismatchedPixels : ℚ)
          / ((max m.origWidth m.genWidth * max m.origHeight m.genHeight : Nat) : ℚ) * 100) ∧
    ((test (.ok (d, m))).passesThreshold = true ↔
      compareScreenshots d ≤ 6 ∧ compareScreenshots m ≤ 8) := by
  refine ⟨rfl, rfl, rfl, ?_⟩
  simp [test, DESKTOP_THRESHOLD, MOBILE_THRESHOLD]

/-- Witness for `C5_scorer_verdict`: a 10×10/8×9 desktop pair and a
5×4/5×4 mobile pair. -/
theorem C5_scorer_verdict_witness :
    (test (.ok (⟨3, 10, 10, 8, 9⟩, ⟨50, 5, 4, 5, 4⟩))).success = true :=
  (C5_scorer_verdict ⟨3, 10, 10, 8, 9⟩ ⟨50, 5, 4, 5, 4⟩ (by decide) (by decide)).1

/-- C6 (confirmed): whenever rendering or comparison fails, `test` returns
— instead of throwing — the worst-case result: both mismatches 100,
verdict false (and empty diff-image paths).  The embedding is total, so the
failure can never escape as an exception. -/
theorem C6_scoring_failure (msg : String) :
    test (.error msg)
      = { success := false, desktopMismatch := 100, mobileMismatch := 100,
          desktopDiffImage := "", mobileDiffImage := "", passesThreshold := false } := rfl

/-! ## Claim C7 (termination of the refinement loop) -/

/-- C7 (confirmed): for every sequence of per-iteration verdicts the loop
runs at most `MAX_ITERATIONS = 3` Generate→Score cycles; it stops short of
the cap exactly when one of the first two iterations passes, every
iteration before the stopping one failed, and when it does stop early the
final iteration is the passing one.  (A verdict that first passes at
iteration 3 stops the loop at the cap, not earlier.) -/
theorem C7_termination (verdict : Nat → Bool) :
    iterationsExecuted verdict ≤ MAX_ITERATIONS ∧
    (iterationsExecuted verdict < MAX_ITERATIONS ↔ verdict 1 = true ∨ verdict 2 = true) ∧
    (∀ k, 1 ≤ k → k < iterationsExecuted verdict → verdict k = false) ∧
    (iterationsExecuted verdict < MAX_ITERATIONS → verdict (iterationsExecuted verdict) = true) := by
  have hrl : iterationsExecuted verdict
      = if verdict 1 then 1 else if verdict 2 then 2 else 3 := by
    cases h1 : verdict 1 <;> cases h2 : verdict 2 <;>
      simp [iterationsExecuted, runLoop, MAX_ITERATIONS, h1, h2]
  cases h1 : verdict 1
  · cases h2 : verdict 2
    · have hv : iterationsExecuted verdict = 3 := by rw [hrl, h1, h2]; rfl
      refine ⟨by rw [hv]; norm_num [MAX_ITERATIONS],
        by simp [hv, MAX_ITERATIONS, h1, h2], ?_, ?_⟩
      · intro k hk1 hk2
        rw [hv] at hk2
        have : k = 1 ∨ k = 2 := by omega
        rcases this with h | h
        · rw [h]; exact h1
        · rw [h]; exact h2
      · intro hcontra
        rw [hv] at hcontra
        exact absurd hcontra (by norm_num [MAX_ITERATIONS])
    · have hv : iterationsExecuted verdict = 2 := by rw [hrl, h1, h2]; rfl
      refine ⟨by rw [hv]; norm_num [MAX_ITERATIONS],
        by simp [hv, MAX_ITERATIONS, h2], ?_, by rw [hv]; intro _; exact h2⟩
      intro k hk1 hk2
      rw [hv] at hk2
      have : k = 1 := by omega
      rw [this]; exact h1
  · have hv : iterationsExecuted verdict = 1 := by rw [hrl, h1]; rfl
    refine ⟨by rw [hv]; norm_num [MAX_ITERATIONS],
      by simp [hv, MAX_ITERATIONS, h1], ?_, by rw [hv]; intro _; exact h1⟩
    intro k hk1 hk2
    rw [hv] at hk2
    omega

/-! ## Claim C8 (typography extraction) -/

/-- C8 (corrected, counterexample): on two entries whose selectors both
begin with `h1`, the code's plan carries the *second* entry's font size
while the spec's first-match extraction carries the first's — the loop of
`buildTypographyPlan` has no break and no "already matched" flag, so later
matches overwrite. -/
theorem C8_typography_counterexample : ¬ typographyFirstMatchClaim := by
  intro h
  exact absurd (congrArg (fun p => p.h1.fontSize) (h cexStyles)) (by decide)

theorem foldl_typographyStep_h4 (l : List (String × StyleSnapshot)) (p : TypographyPlan) :
    (l.foldl typographyStep p).h4 = p.h4 := by
  induction l generalizing p with
  | nil => rfl
  | cons e rest ih =>
    rw [List.foldl_cons, ih]
    unfold typographyStep
    split_ifs <;> rfl

theorem foldl_typographyStep_small (l : List (String × StyleSnapshot)) (p : TypographyPlan) :
    (l.foldl typographyStep p).small = p.small := by
  induction l generalizing p with
  | nil => rfl
  | cons e rest ih =>
    rw [List.foldl_cons, ih]
    unfold typographyStep
    split_ifs <;> rfl

/-- C8 (amended): the extraction starts from the fixed defaults and runs
*every* matching entry through its level's update — the last matching
entry wins for each field it carries (a field missing or empty in the
entry keeps the value accumulated so far) — and only h1 (size, weight,
line height), h2 and h3 (size, weight) and body via selectors beginning
with `p` (size, line height) are ever updated; h4 and small always keep
their defaults. -/
theorem C8_typography (l : List (String × StyleSnapshot)) :
    (buildTypographyPlan l).h4 = defaultTypographyPlan.h4 ∧
    (buildTypographyPlan l).small = defaultTypographyPlan.small ∧
    (∀ sel st, jsStartsWith sel "h1" = true →
      buildTypographyPlan (l ++ [(sel, st)])
        = { buildTypographyPlan l with h1 := h1Update (buildTypographyPlan l).h1 st }) := by
  refine ⟨foldl_typographyStep_h4 l _, foldl_typographyStep_small l _, ?_⟩
  intro sel st hsel
  unfold buildTypographyPlan
  rw [List.foldl_append, List.foldl_cons, List.foldl_nil]
  unfold typographyStep
  rw [if_pos hsel]

/-- Witness for `C8_typography`: appending a second `h1`-matching entry to
`cexStylesBase` overwrites the already-extracted h1 level. -/
theorem C8_typography_witness :
    buildTypographyPlan (cexStylesBase ++ [("h1.hero", (⟨some "20px", none, none⟩ : StyleSnapshot))])
      = { buildTypographyPlan cexStylesBase with
          h1 := h1Update (buildTypographyPlan cexStylesBase).h1 ⟨some "20px", none, none⟩ } :=
  (C8_typography cexStylesBase).2.2 "h1.hero" ⟨some "20px", none, none⟩ (by decide)

/-! ## Claim C9 (refinement frame) -/

theorem applySpacing_structure (plan : LayoutPlan) :
    (applySpacing plan).sections.map sectionStructure = plan.sections.map sectionStructure := by
  show (plan.sections.map _).map sectionStructure = _
  rw [List.map_map]
  apply List.map_congr_left
  intro s _
  show sectionStructure _ = sectionStructure s
  cases hp : s.styles.padding <;> simp only [hp] <;> split_ifs <;> rfl

theorem applyCardWidth_structure (plan : LayoutPlan) (adjustment : String) :
    (applyCardWidth plan adjustment).sections.map sectionStructure
      = plan.sections.map sectionStructure := by
  show (plan.sections.map _).map sectionStructure = _
  rw [List.map_map]
  apply List.map_congr_left
  intro s _
  show sectionStructure
      (if (s.type = SectionType.offerList || s.type = SectionType.offerCard) = true then
        { s with layout := { s.layout with
            maxWidth := some (if jsIncludes adjustment "wider" then "900px" else "700px") } }
      else s) = sectionStructure s
  split_ifs <;> rfl

theorem applyAlignment_structure (plan : LayoutPlan) (adjustment : String) :
    (applyAlignment plan adjustment).sections.map sectionStructure
      = plan.sections.map sectionStructure := by
  show (plan.sections.map _).map sectionStructure = _
  rw [List.map_map]
  apply List.map_congr_left
  intro s _
  rfl

theorem applyAdjustment_structure (plan : LayoutPlan) (adjustment : String) :
    (applyAdjustment plan adjustment).sections.map sectionStructure
      = plan.sections.map sectionStructure := by
  unfold applyAdjustment
  split_ifs <;>
    simp only [applyAlignment_structure, applyCardWidth_structure, applySpacing_structure,
      applyLineHeight, applyFont] <;>
    simp only [applyCardWidth_structure, applySpacing_structure]

/-- C9 (confirmed): refinement never touches a section's `id`, `type`,
`order` or child tree — in fact the elements are carried over unchanged in
full, so every element's `tag`, `content`, `src`, `href` and nesting
survive every adjustment list; only `styles`, `layout` and the plan's
`typography` are rewritten.  (The source additionally deep-copies before
mutating, so the caller's plan object is untouched; in this pure embedding
`refine` is that copy-then-mutate as a function.) -/
theorem C9_refine_frame (plan : LayoutPlan) (adjustments : List String) :
    (refine plan adjustments).sections.map sectionStructure
      = plan.sections.map sectionStructure := by
  unfold refine
  induction adjustments generalizing plan with
  | nil => rfl
  | cons a rest ih =>
    rw [List.foldl_cons, ih (applyAdjustment plan a), applyAdjustment_structure]

/-! ## Claim C1 (best-candidate tracking) -/

theorem runBestFrom_cons (st : BestState) (i : Nat) (o : IterationOutcome)
    (rest : List IterationOutcome) :
    runBestFrom st i (o :: rest) = runBestFrom (updateBest st i o) (i + 1) rest := rfl

/-- Complete characterization of the best-tracking fold: either no
iteration strictly beats the incoming state (which is then kept), or the
final state is exactly the earliest iteration attaining the minimum sum,
numbered from `i`. -/
theorem runBestFrom_spec (l : List IterationOutcome) : ∀ (st : BestState) (i : Nat),
    ((∀ o ∈ l, sumBest st ≤ sumOutcome o) ∧ runBestFrom st i l = st) ∨
    (∃ j, ∃ hj : j < l.length,
      runBestFrom st i l
        = ⟨i + j, (l.get ⟨j, hj⟩).desktop, (l.get ⟨j, hj⟩).mobile, (l.get ⟨j, hj⟩).html⟩ ∧
      sumOutcome (l.get ⟨j, hj⟩) < sumBest st ∧
      (∀ o ∈ l, sumOutcome (l.get ⟨j, hj⟩) ≤ sumOutcome o) ∧
      (∀ k, ∀ hk : k < j, sumOutcome (l.get ⟨j, hj⟩)
        < sumOutcome (l.get ⟨k, Nat.lt_trans hk hj⟩))) := by
  induction l with
  | nil =>
    intro st i
    left
    exact ⟨fun o h => absurd h (List.not_mem_nil o), rfl⟩
  | cons o rest ih =>
    intro st i
    rw [runBestFrom_cons]
    by_cases hlt : sumOutcome o < sumBest st
    · have hupd : updateBest st i o = ⟨i, o.desktop, o.mobile, o.html⟩ := by
        simp [updateBest, hlt]
      have hsum : sumBest (updateBest st i o) = sumOutcome o := by
        rw [hupd]; rfl
      rcases ih (updateBest st i o) (i + 1) with ⟨hall, heq⟩ | ⟨j, hj, heq, hlt2, hmin, hstrict⟩
      · right
        refine ⟨0, Nat.succ_pos _, ?_, hlt, ?_, ?_⟩
        · exact heq.trans (hupd.trans rfl)
        · intro o2 ho2
          rcases List.mem_cons.mp ho2 with h | h
          · rw [h]
            exact le_of_eq rfl
          · have := hall o2 h
            rw [hsum] at this
            exact this
        · intro k hk
          exact absurd hk (Nat.not_lt_zero k)
      · right
        refine ⟨j + 1, Nat.succ_lt_succ hj, ?_, ?_, ?_, ?_⟩
        · rw [heq]
          have harith : i + 1 + j = i + (j + 1) := by omega
          rw [harith]
          rfl
        · rw [hsum] at hlt2
          exact lt_trans hlt2 hlt
        · intro o2 ho2
          rcases List.mem_cons.mp ho2 with h | h
          · rw [hsum] at hlt2
            rw [h]
            exact le_of_lt hlt2
          · exact hmin o2 h
        · intro k hk
          match k, hk with
          | 0, _ =>
            rw [hsum] at hlt2
            exact hlt2
          | k2 + 1, hk =>
            exact hstrict k2 (Nat.lt_of_succ_lt_succ hk)
    · have hupd : updateBest st i o = st := by
        simp [updateBest, hlt]
      rw [hupd]
      rcases ih st (i + 1) with ⟨hall, heq⟩ | ⟨j, hj, heq, hlt2, hmin, hstrict⟩
      · left
        refine ⟨?_, heq⟩
        intro o2 ho2
        rcases List.mem_cons.mp ho2 with h | h
        · rw [h]
          exact le_of_not_lt hlt
        · exact hall o2 h
      · right
        refine ⟨j + 1, Nat.succ_lt_succ hj, ?_, hlt2, ?_, ?_⟩
        · rw [heq]
          have harith : i + 1 + j = i + (j + 1) := by omega
          rw [harith]
          rfl
        · intro o2 ho2
          rcases List.mem_cons.mp ho2 with h | h
          · rw [h]
            exact le_of_lt (lt_of_lt_of_le hlt2 (le_of_not_lt hlt))
          · exact hmin o2 h
        · intro k hk
          match k, hk with
          | 0, _ =>
            exact lt_of_lt_of_le hlt2 (le_of_not_lt hlt)
          | k2 + 1, hk =>
            exact hstrict k2 (Nat.lt_of_succ_lt_succ hk)

/-- C1 (amended): with every per-viewport mismatch in `[0, 100]`,
(a) after every prefix of `k ≥ 1` iterations the recorded best sum equals
the minimum of the first `k` sums (the claim's min property, with ties
kept by the earlier iteration);
(b) when some iteration scores strictly below the initial sentinel sum
`200 = 100 + 100`, the final best candidate is exactly the earliest
iteration attaining the minimum — its index, scores and HTML — and that
HTML is the emitted artifact;
(c) but when every iteration's sum is `200` (all-failure runs), the
controller keeps the sentinel: best iteration `0` and **empty** best HTML,
so the emitted artifact is the empty string, not any iteration's document. -/
theorem C1_best_tracking (outcomes : List IterationOutcome)
    (hb : ∀ o ∈ outcomes, 0 ≤ o.desktop ∧ o.desktop ≤ 100 ∧ 0 ≤ o.mobile ∧ o.mobile ≤ 100) :
    (∀ k, 1 ≤ k → k ≤ outcomes.length →
      (∀ o ∈ outcomes.take k, sumBest (runBest (outcomes.take k)) ≤ sumOutcome o) ∧
      (∃ o ∈ outcomes.take k, sumBest (runBest (outcomes.take k)) = sumOutcome o)) ∧
    ((∃ o ∈ outcomes, sumOutcome o < 200) →
      ∃ j, ∃ hj : j < outcomes.length,
        runBest outcomes = ⟨j + 1, (outcomes.get ⟨j, hj⟩).desktop,
          (outcomes.get ⟨j, hj⟩).mobile, (outcomes.get ⟨j, hj⟩).html⟩ ∧
        (∀ o ∈ outcomes, sumOutcome (outcomes.get ⟨j, hj⟩) ≤ sumOutcome o) ∧
        (∀ k, ∀ hk : k < j, sumOutcome (outcomes.get ⟨j, hj⟩)
          < sumOutcome (outcomes.get ⟨k, Nat.lt_trans hk hj⟩))) ∧
    ((∀ o ∈ outcomes, 200 ≤ sumOutcome o) → runBest outcomes = initialBest) := by
  have h200 : sumBest initialBest = 200 := by norm_num [sumBest, initialBest]
  refine ⟨?_, ?_, ?_⟩
  · intro k hk1 hk2
    rcases runBestFrom_spec (outcomes.take k) initialBest 1 with
      ⟨hall, heq⟩ | ⟨j, hj, heq, hlt, hmin, _⟩
    · have heq2 : runBest (outcomes.take k) = initialBest := heq
      have hpos : 0 < (outcomes.take k).length := by
        rw [List.length_take]
        omega
      constructor
      · intro o ho
        rw [heq2, h200]
        have := hall o ho
        rw [h200] at this
        exact this
      · obtain ⟨o0, ho0⟩ := List.exists_mem_of_length_pos hpos
        refine ⟨o0, ho0, ?_⟩
        have hge := hall o0 ho0
        rw [h200] at hge
        have hmem : o0 ∈ outcomes := List.take_subset k outcomes ho0
        obtain ⟨hd0, hd1, hm0, hm1⟩ := hb o0 hmem
        have hle : sumOutcome o0 ≤ 200 := by
          unfold sumOutcome
          linarith
        rw [heq2, h200]
        linarith
    · have hsum : sumBest (runBest (outcomes.take k))
          = sumOutcome ((outcomes.take k).get ⟨j, hj⟩) := by
        show sumBest (runBestFrom initialBest 1 (outcomes.take k)) = _
        rw [heq]
        rfl
      constructor
      · intro o ho
        rw [hsum]
        exact hmin o ho
      · exact ⟨(outcomes.take k).get ⟨j, hj⟩, List.get_mem _ _ _, hsum⟩
  · rintro ⟨o1, ho1, hlt1⟩
    rcases runBestFrom_spec outcomes initialBest 1 with
      ⟨hall, _⟩ | ⟨j, hj, heq, _, hmin, hstrict⟩
    · exfalso
      have := hall o1 ho1
      rw [h200] at this
      linarith
    · refine ⟨j, hj, ?_, hmin, hstrict⟩
      show runBestFrom initialBest 1 outcomes = _
      rw [heq, Nat.add_comm 1 j]
  · intro hge
    rcases runBestFrom_spec outcomes initialBest 1 with
      ⟨_, heq⟩ | ⟨j, hj, _, hlt, _, _⟩
    · exact heq
    · exfalso
      have := hge (outcomes.get ⟨j, hj⟩) (List.get_mem _ _ _)
      rw [h200] at hlt
      linarith

/-- Witness for `C1_best_tracking`: the two-iteration run `demoOutcomes`,
prefix of length 1. -/
theorem C1_best_tracking_witness :
    (∀ o ∈ demoOutcomes.take 1, sumBest (runBest (demoOutcomes.take 1)) ≤ sumOutcome o) ∧
    (∃ o ∈ demoOutcomes.take 1, sumBest (runBest (demoOutcomes.take 1)) = sumOutcome o) :=
  (C1_best_tracking demoOutcomes (by decide)).1 1 (by decide) (by decide)

/-- C1 (corrected, counterexample): the claim's artifact clause fails on a
run whose only iteration scores `100 + 100`: no iteration beats the
initial sentinel (`totalMismatch < bestTotalMismatch` is strict,
lines 673-675), so `bestHtml` stays the initial `''` and the emitted
artifact is the empty string — not the HTML of the best-scoring
iteration. -/
theorem C1_best_tracking_counterexample : ¬ bestCandidateClaim := by
  intro h
  obtain ⟨j, hj, _, hhtml⟩ :=
    (h worstRun (by decide) (by simp [worstRun])).2
  have hj0 : j = 0 := by
    have hlen : worstRun.length = 1 := by simp [worstRun]
    omega
  subst hj0
  have hnotlt : ¬ (sumOutcome ⟨100, 100, "<!DOCTYPE html>"⟩ < sumBest initialBest) := by
    norm_num [sumOutcome, sumBest, initialBest]
  have hrb : runBest worstRun = initialBest := by
    simp [runBest, worstRun, runBestFrom, updateBest, hnotlt]
  rw [hrb] at hhtml
  simp [worstRun, initialBest] at hhtml

/-- Witness for `C7_termination`: with no verdict ever passing, the loop
runs exactly to the cap. -/
theorem C7_termination_witness :
    iterationsExecuted (fun _ => false) ≤ MAX_ITERATIONS ∧
    (1 ≤ 1 → 1 < iterationsExecuted (fun _ => false) → (fun _ => false) 1 = false) :=
  ⟨(C7_termination (fun _ => false)).1, (C7_termination (fun _ => false)).2.2.1 1⟩
